import Mathlib

/-! The query view of `rag-frontend` (`src/App.js`).

A shallow embedding of the single React component `App`: its four state
cells, the submit handler `handleSubmit`, the change handler of the text
input, and the element tree the component returns.

Conventions of the embedding.

* JavaScript values that can reach the component (a parsed JSON document,
  or `undefined` where a property is absent) are the type `JsVal`.
  Numbers are rationals, which contain every finite double; strings are
  sequences of code points.
* A state setter is a function on `State`. React applies the setter calls of
  one uninterrupted run of the handler together, so the states the view can
  be observed in are those at the points where the handler yields: the
  `await` of the request and the end of the handler.
* `console.error` and the issued request are returned as data.
-/

namespace App

/-! ## JavaScript values -/

/-- A JavaScript value: `undefined` or a value of the JSON data model. An
object is the list of its own properties. -/
inductive JsVal where
  | undefined
  | null
  | bool (b : Bool)
  | num (n : ℚ)
  | str (s : String)
  | arr (items : List JsVal)
  | obj (fields : List (String × JsVal))

/-- What a `catch` clause can receive: a `TypeError` raised by the
JavaScript runtime, or the reason a promise was rejected with. -/
inductive Thrown where
  | typeError
  | rejection (reason : JsVal)

/-- The property names that `App.js` reads. -/
inductive Field where
  | data
  | contexts
  | length
  | source_title
  | text_snippet
  | source_url
  deriving DecidableEq

/-- The name of a property as written in the source. -/
def Field.key : Field → String
  | .data => "data"
  | .contexts => "contexts"
  | .length => "length"
  | .source_title => "source_title"
  | .text_snippet => "text_snippet"
  | .source_url => "source_url"

/-- Own-property lookup in an object; `undefined` when absent. -/
def lookupOwn : List (String × JsVal) → String → JsVal
  | [], _ => .undefined
  | (k, v) :: rest, name => if k = name then v else lookupOwn rest name

/-- Whether an object has an own property of the given name. -/
def hasOwn (fields : List (String × JsVal)) (name : String) : Bool :=
  fields.any (fun kv => kv.1 = name)

/-- Number of UTF-16 code units of a string, the `length` of a JavaScript
string. -/
def utf16Length (s : String) : Nat :=
  (s.data.map (fun c => if 0x10000 ≤ c.val then 2 else 1)).sum

/-- The member expression `v.f` for one of the names in `Field`: a
`TypeError` on `undefined` and `null`, the own property of an object, the
`length` of an array or a string, and `undefined` otherwise. -/
def getField (v : JsVal) (f : Field) : Except Thrown JsVal :=
  match v with
  | .undefined => .error .typeError
  | .null => .error .typeError
  | .obj fields => .ok (lookupOwn fields f.key)
  | .arr items => .ok (if f = .length then .num items.length else .undefined)
  | .str s => .ok (if f = .length then .num (utf16Length s) else .undefined)
  | .bool _ => .ok .undefined
  | .num _ => .ok .undefined

/-! ## Strings: `trim` and the conversion to a number -/

/-- White space and line terminators, the characters `String.prototype.trim`
removes. -/
def isJsWhitespace (c : Char) : Bool :=
  c.val = 0x09 || c.val = 0x0A || c.val = 0x0B || c.val = 0x0C || c.val = 0x0D ||
  c.val = 0x20 || c.val = 0xA0 || c.val = 0x1680 ||
  (0x2000 ≤ c.val && c.val ≤ 0x200A) ||
  c.val = 0x2028 || c.val = 0x2029 || c.val = 0x202F || c.val = 0x205F ||
  c.val = 0x3000 || c.val = 0xFEFF

/-- Strip leading and trailing white space from a character sequence. -/
def trimChars (cs : List Char) : List Char :=
  ((cs.dropWhile isJsWhitespace).reverse.dropWhile isJsWhitespace).reverse

/-- The method `String.prototype.trim`. -/
def jsTrim (s : String) : String := ⟨trimChars s.data⟩

/-- Truthiness of a string: every string but the empty one. -/
def strTruthy (s : String) : Bool := decide (s ≠ "")

def isDecDigit (c : Char) : Bool := 0x30 ≤ c.val && c.val ≤ 0x39

def isHexDigit (c : Char) : Bool :=
  isDecDigit c || (0x41 ≤ c.val && c.val ≤ 0x46) || (0x61 ≤ c.val && c.val ≤ 0x66)

def isOctDigit (c : Char) : Bool := 0x30 ≤ c.val && c.val ≤ 0x37

def isBinDigit (c : Char) : Bool := c.val = 0x30 || c.val = 0x31

/-- Value of a run of decimal digits. -/
def natOfDigits (ds : List Char) : Nat :=
  ds.foldl (fun n c => 10 * n + (c.toNat - 48)) 0

/-- A non-empty run of decimal digits. -/
def isDigitRun (ds : List Char) : Bool := !ds.isEmpty && ds.all isDecDigit

/-- The optional exponent part of a decimal literal, which must reach the end
of the text: its value, or `none` when the text is not an exponent part. -/
def parseExponent : List Char → Option Int
  | [] => some 0
  | c :: rest =>
    if c = 'e' ∨ c = 'E' then
      match rest with
      | '+' :: ds => if isDigitRun ds then some (natOfDigits ds) else none
      | '-' :: ds => if isDigitRun ds then some (-(natOfDigits ds : Int)) else none
      | ds => if isDigitRun ds then some (natOfDigits ds) else none
    else none

/-- Whether `m * 10 ^ e` rounds to a double above zero: it is positive and
lies above half of the least positive double, `2 ^ (-1075)`. -/
def roundsPositive (m : Nat) (e : Int) : Bool :=
  decide (0 < m) && (decide (0 ≤ e) || decide (10 ^ (-e).toNat < m * 2 ^ 1075))

/-- An unsigned decimal literal (`Infinity`, or digits with an optional
fraction and exponent): `none` when the text is no such literal, otherwise
whether its value is above zero. -/
def unsignedDecimalPositive (cs : List Char) : Option Bool :=
  if cs = "Infinity".data then some true
  else
    let ip := cs.takeWhile isDecDigit
    let r1 := cs.dropWhile isDecDigit
    let fr : List Char × List Char :=
      match r1 with
      | '.' :: r => (r.takeWhile isDecDigit, r.dropWhile isDecDigit)
      | _ => ([], r1)
    if ip.isEmpty && fr.1.isEmpty then none
    else
      match parseExponent fr.2 with
      | none => none
      | some e => some (roundsPositive (natOfDigits (ip ++ fr.1)) (e - fr.1.length))

/-- A run of digits of a non-decimal literal denotes a number above zero. -/
def radixPositive (isDigit : Char → Bool) (ds : List Char) : Bool :=
  !ds.isEmpty && ds.all isDigit && ds.any (fun c => c ≠ '0')

/-- Whether the number a string converts to is above zero (`NaN` is not). -/
def strPositive (s : String) : Bool :=
  match trimChars s.data with
  | [] => false
  | '-' :: _ => false
  | '+' :: r => (unsignedDecimalPositive r).getD false
  | '0' :: 'x' :: ds => radixPositive isHexDigit ds
  | '0' :: 'X' :: ds => radixPositive isHexDigit ds
  | '0' :: 'o' :: ds => radixPositive isOctDigit ds
  | '0' :: 'O' :: ds => radixPositive isOctDigit ds
  | '0' :: 'b' :: ds => radixPositive isBinDigit ds
  | '0' :: 'B' :: ds => radixPositive isBinDigit ds
  | cs => (unsignedDecimalPositive cs).getD false

mutual
/-- Whether converting a value to a primitive raises a `TypeError`: an object
whose own `toString` property (never callable in JSON data) hides the
inherited method, directly or as an element of an array being joined. -/
def toPrimitiveThrows : JsVal → Bool
  | .obj fields => hasOwn fields "toString"
  | .arr items => anyToPrimitiveThrows items
  | _ => false
/-- Some element of the list raises on conversion to a primitive. -/
def anyToPrimitiveThrows : List JsVal → Bool
  | [] => false
  | x :: xs => toPrimitiveThrows x || anyToPrimitiveThrows xs
end

/-- Whether the number a value converts to is above zero, for a value whose
conversion does not raise. An array converts through the text of its join. -/
def toNumberPositive : JsVal → Bool
  | .undefined => false
  | .null => false
  | .bool b => b
  | .num n => decide (0 < n)
  | .str s => strPositive s
  | .arr [.bool _] => false
  | .arr [x] => toNumberPositive x
  | .arr _ => false
  | .obj _ => false

/-- The comparison `v > 0`. -/
def gtZero (v : JsVal) : Except Thrown Bool :=
  if toPrimitiveThrows v then .error .typeError else .ok (toNumberPositive v)

/-! ## Component state -/

/-- The four `useState` cells of `App`. `query` holds the text of the input,
`loading` a boolean, `error` is `null` or a message; `results` holds whatever
value the response delivered. -/
structure State where
  query : String
  results : JsVal
  loading : Bool
  error : Option String

/-- The initial values passed to `useState`. -/
def State.init : State :=
  { query := "", results := .arr [], loading := false, error := none }

def setQuery (v : String) (s : State) : State := { s with query := v }

def setResults (v : JsVal) (s : State) : State := { s with results := v }

def setLoading (b : Bool) (s : State) : State := { s with loading := b }

def setError (e : Option String) (s : State) : State := { s with error := e }

/-! ## The request and its outcome -/

/-- A call `axios.post(url, body)`. -/
structure Request where
  method : String
  url : String
  body : JsVal

/-- How the awaited promise of the request settles. -/
inductive Outcome where
  | resolved (response : JsVal)
  | rejected (reason : JsVal)

/-- The message of the `catch` clause. -/
def errorMessage : String :=
  "An error occurred while fetching data. Please check if the backend is running."

/-- The request built in `handleSubmit` from the current query text. -/
def askRequest (query : String) : Request :=
  { method := "POST"
    url := "http://127.0.0.1:8000/ask"
    body := .obj [("q", .str query), ("k", .num 5), ("mode", .str "hybrid")] }

/-! ## `handleSubmit` -/

/-- The synchronous prefix of `handleSubmit`, lines 13 to 23: the three
resets, the emptiness check with its early return, and otherwise the request
on which the handler then waits. -/
def handleSubmitEnter (s : State) : State × Option Request :=
  let s1 := setLoading true s
  let s2 := setError none s1
  let s3 := setResults (.arr []) s2
  if !strTruthy (jsTrim s.query) then
    (setLoading false s3, none)
  else
    (s3, some (askRequest s.query))

/-- The body of the `try` after the `await`: read `response.data.contexts`. -/
def readContexts (response : JsVal) : Except Thrown JsVal :=
  match getField response .data with
  | .error t => .error t
  | .ok data => getField data .contexts

/-- The rest of `handleSubmit` once the request has settled, lines 23 to 35,
applied to the state at that time: `try` body, `catch`, `finally`. The second
component is what `console.error` received. -/
def handleSubmitSettle (s : State) (o : Outcome) : State × List Thrown :=
  let tried : Except Thrown JsVal :=
    match o with
    | .rejected reason => .error (.rejection reason)
    | .resolved response => readContexts response
  match tried with
  | .ok contexts => (setLoading false (setResults contexts s), [])
  | .error err => (setLoading false (setError (some errorMessage) s), [err])

/-- One complete call of `handleSubmit`. -/
structure Run where
  /-- The state while the handler is suspended at the `await`, if it gets
  there. -/
  atAwait : Option State
  /-- The requests issued, in order. -/
  requests : List Request
  /-- The state when the handler has finished. -/
  final : State
  /-- What was written with `console.error`. -/
  console : List Thrown

/-- The handler `handleSubmit` run to completion from state `s`, with
`backend` giving the way the request settles. -/
def handleSubmit (s : State) (backend : Request → Outcome) : Run :=
  match handleSubmitEnter s with
  | (s1, none) => { atAwait := none, requests := [], final := s1, console := [] }
  | (s1, some req) =>
    let r := handleSubmitSettle s1 (backend req)
    { atAwait := some s1, requests := [req], final := r.1, console := r.2 }

/-- The `onChange` handler of the text input: `setQuery(e.target.value)`. -/
def onChange (value : String) (s : State) : State := setQuery value s

/-! ## The transport

`axios` is a dependency of the repository, not part of its sources. The
handler depends on it only through the way the promise of `axios.post`
settles; the definitions below record its default configuration. -/

/-- The body of an HTTP response: text that parses as JSON to a value, or
text that does not parse. -/
inductive Body where
  | json (value : JsVal)
  | malformed (raw : String)

/-- What happened to the request on the network. -/
inductive Exchange where
  /-- No response arrived. -/
  | networkFailure (reason : JsVal)
  /-- The backend answered with a status code and a body. -/
  | reply (status : Nat) (body : Body)

/-- The response object handed to the caller. -/
def responseObject (status : Nat) (data : JsVal) : JsVal :=
  .obj [("data", data), ("status", .num status)]

/-- Settlement of `axios.post` under the default configuration: the promise
rejects when no response arrives or the status lies outside 200 to 299;
otherwise it resolves, `data` being the parsed body, or the text itself
when the text does not parse (JSON parsing is silent by default). -/
def axiosPost (reject : JsVal) : Exchange → Outcome
  | .networkFailure reason => .rejected reason
  | .reply status body =>
    if 200 ≤ status ∧ status < 300 then
      match body with
      | .json value => .resolved (responseObject status value)
      | .malformed raw => .resolved (responseObject status (.str raw))
    else .rejected reject

/-! ## Rendering -/

/-- The submit button, lines 50 to 52. -/
structure Button where
  disabled : Bool
  label : String

/-- The text input, lines 44 to 49. -/
structure Input where
  value : String
  placeholder : String

/-- One result card, lines 60 to 66. The three values are passed to React as
read from the item. -/
structure Card where
  key : Nat
  title : JsVal
  snippet : JsVal
  href : JsVal
  linkText : String

/-- The content of the results container, lines 58 to 70. -/
inductive ResultsPane where
  | cards (cs : List Card)
  | noResults (text : String)
  | blank

/-- The cards in the results container. -/
def ResultsPane.cardList : ResultsPane → List Card
  | .cards cs => cs
  | .noResults _ => []
  | .blank => []

/-- The text of the placeholder paragraph, if it is shown. -/
def ResultsPane.placeholderText : ResultsPane → Option String
  | .cards _ => none
  | .noResults text => some text
  | .blank => none

/-- The element tree returned by `App`. -/
structure View where
  heading : String
  input : Input
  button : Button
  errorBanner : Option String
  results : ResultsPane

/-- The text of the placeholder paragraph. -/
def noResultsText : String := "No results found or waiting for a query."

/-- The button element: `disabled={loading}` and the label chosen by
`loading`. -/
def submitButton (s : State) : Button :=
  { disabled := s.loading
    label := if s.loading then "Searching..." else "Search" }

/-- The input element. -/
def queryInput (s : State) : Input :=
  { value := s.query
    placeholder := "Ask a question about industrial safety..." }

/-- The expression `error && <div className="error">...`: the banner with the
message when `error` is truthy, nothing otherwise. -/
def errorBanner (s : State) : Option String :=
  match s.error with
  | none => none
  | some msg => if strTruthy msg then some msg else none

/-- The callback of `results.map`: one card from an item and its index. -/
def resultCard (result : JsVal) (index : Nat) : Except Thrown Card :=
  match getField result .source_title with
  | .error t => .error t
  | .ok title =>
    match getField result .text_snippet with
    | .error t => .error t
    | .ok snippet =>
      match getField result .source_url with
      | .error t => .error t
      | .ok href =>
        .ok { key := index, title := title, snippet := snippet, href := href,
              linkText := "View Source" }

/-- The call `results.map(...)` on an array, from index `index` on; the first
item that raises ends the mapping. -/
def mapCards : List JsVal → Nat → Except Thrown (List Card)
  | [], _ => .ok []
  | item :: rest, index =>
    match resultCard item index with
    | .error t => .error t
    | .ok card =>
      match mapCards rest (index + 1) with
      | .error t => .error t
      | .ok cards => .ok (card :: cards)

/-- The content of the results container: the conditional on
`results.length > 0`. Outside arrays there is no callable `map`, so the first
branch raises. -/
def renderResults (results : JsVal) (loading : Bool) : Except Thrown ResultsPane :=
  match getField results .length with
  | .error t => .error t
  | .ok len =>
    match gtZero len with
    | .error t => .error t
    | .ok true =>
      match results with
      | .arr items =>
        match mapCards items 0 with
        | .error t => .error t
        | .ok cards => .ok (.cards cards)
      | _ => .error .typeError
    | .ok false => .ok (if !loading then .noResults noResultsText else .blank)

/-- The body of `App` from line 38 on: the element tree for a state, or the
exception raised while building it. -/
def render (s : State) : Except Thrown View :=
  match renderResults s.results s.loading with
  | .error t => .error t
  | .ok pane =>
    .ok { heading := "Professional RAG Chatbot 🤖"
          input := queryInput s
          button := submitButton s
          errorBanner := errorBanner s
          results := pane }

/-! ## The component over time -/

/-- The component together with the number of `handleSubmit` calls suspended
at their `await`. -/
structure Sys where
  view : State
  inFlight : Nat

/-- The component as mounted. -/
def Sys.init : Sys := { view := State.init, inFlight := 0 }

/-- What can happen to the mounted component. -/
inductive Event where
  /-- The user edits the input. -/
  | change (value : String)
  /-- The form is submitted. -/
  | submit
  /-- A pending request settles. -/
  | settle (o : Outcome)

/-- One event. A `settle` needs a pending request. -/
def Sys.step (c : Sys) : Event → Option Sys
  | .change value => some { c with view := onChange value c.view }
  | .submit =>
    match handleSubmitEnter c.view with
    | (s, none) => some { view := s, inFlight := c.inFlight }
    | (s, some _) => some { view := s, inFlight := c.inFlight + 1 }
  | .settle o =>
    if c.inFlight = 0 then none
    else some { view := (handleSubmitSettle c.view o).1, inFlight := c.inFlight - 1 }

/-- One event under sequential submissions: a submission is accepted only
when no earlier one is pending. -/
def Sys.stepSeq (c : Sys) : Event → Option Sys
  | .submit => if c.inFlight = 0 then c.step .submit else none
  | e => c.step e

/-- A sequence of events, from the left. -/
def Sys.run (c : Sys) : List Event → Option Sys
  | [] => some c
  | e :: es =>
    match c.step e with
    | none => none
    | some c1 => Sys.run c1 es

/-- A sequence of events under sequential submissions. -/
def Sys.runSeq (c : Sys) : List Event → Option Sys
  | [] => some c
  | e :: es =>
    match c.stepSeq e with
    | none => none
    | some c1 => Sys.runSeq c1 es

/-! ## The view states of the specification -/

/-- Idle: not loading, no error, no results. -/
def State.isIdle (s : State) : Prop :=
  s.loading = false ∧ s.error = none ∧ s.results = .arr []

/-- Loading: loading, no error, no results. -/
def State.isLoading (s : State) : Prop :=
  s.loading = true ∧ s.error = none ∧ s.results = .arr []

/-- Success: not loading, no error, and the results are the list `returned`
that the response delivered as its contexts. -/
def State.isSuccess (s : State) (returned : List JsVal) : Prop :=
  s.loading = false ∧ s.error = none ∧ s.results = .arr returned

/-- Failure: not loading, the error set, no results. -/
def State.isFailure (s : State) : Prop :=
  s.loading = false ∧ s.error = some errorMessage ∧ s.results = .arr []

/-- The value a settled request hands to `setResults`: the contexts of a
response on which reading them does not raise. -/
def Outcome.returned : Outcome → Option JsVal
  | .rejected _ => none
  | .resolved response =>
    match readContexts response with
    | .ok contexts => some contexts
    | .error _ => none

/-- The outcome of the latest `settle` event of a sequence, if there is one. -/
def lastSettle : List Event → Option Outcome
  | [] => none
  | e :: es =>
    match lastSettle es with
    | some o => some o
    | none =>
      match e with
      | .settle o => some o
      | _ => none

/-- An outcome that hands `setResults` nothing or a list: a rejection, a
response on which reading the contexts raises, or a response whose contexts
is an array. -/
def Outcome.listShaped (o : Outcome) : Bool :=
  match o.returned with
  | none => true
  | some (.arr _) => true
  | some _ => false

/-- Every `settle` of the sequence carries a list-shaped outcome. -/
def allListShaped : List Event → Bool
  | [] => true
  | .settle o :: es => o.listShaped && allListShaped es
  | _ :: es => allListShaped es

/-- The states a component may be in under sequential submissions, `seen`
being the events so far: with nothing pending, the cleared state, the failure
state, or not loading, no error and as results the value the latest settled
response returned; with one request pending, the loading state. -/
def Sys.Consistent (seen : List Event) (c : Sys) : Prop :=
  (c.inFlight = 0 ∧
    (c.view.isIdle ∨ c.view.isFailure ∨
      ∃ o returned, lastSettle seen = some o ∧ o.returned = some returned ∧
        c.view.loading = false ∧ c.view.error = none ∧ c.view.results = returned)) ∨
  (c.inFlight = 1 ∧ c.view.isLoading)

/-- A value that is neither `undefined` nor `null`. -/
def JsVal.isPresent : JsVal → Bool
  | .undefined => false
  | .null => false
  | _ => true

/-- An array none of whose items is `undefined` or `null`. -/
def JsVal.isItemList : JsVal → Bool
  | .arr items => items.all JsVal.isPresent
  | _ => false

/-- An outcome after which the results stay an array of present items: a
rejection, a response on which reading the contexts raises, or a response
whose contexts is such an array. -/
def Outcome.wellShaped : Outcome → Bool
  | .rejected _ => true
  | .resolved response =>
    match readContexts response with
    | .error _ => true
    | .ok contexts => contexts.isItemList

/-- Every `settle` of the sequence carries a well-shaped outcome. -/
def allWellShaped : List Event → Bool
  | [] => true
  | .settle o :: es => o.wellShaped && allWellShaped es
  | _ :: es => allWellShaped es

end App

namespace App

/-! ## Auxiliary facts -/

theorem handleSubmitEnter_blank (s : State) (h : jsTrim s.query = "") :
    handleSubmitEnter s =
      ({ query := s.query, results := .arr [], loading := false, error := none }, none) := by
  simp [handleSubmitEnter, h, strTruthy, setLoading, setError, setResults]

theorem handleSubmitEnter_nonblank (s : State) (h : jsTrim s.query ≠ "") :
    handleSubmitEnter s =
      ({ query := s.query, results := .arr [], loading := true, error := none },
        some (askRequest s.query)) := by
  simp [handleSubmitEnter, h, strTruthy, setLoading, setError, setResults]

theorem handleSubmit_nonblank (s : State) (backend : Request → Outcome)
    (h : jsTrim s.query ≠ "") :
    handleSubmit s backend =
      { atAwait := some { query := s.query, results := .arr [], loading := true, error := none }
        requests := [askRequest s.query]
        final := (handleSubmitSettle
          { query := s.query, results := .arr [], loading := true, error := none }
          (backend (askRequest s.query))).1
        console := (handleSubmitSettle
          { query := s.query, results := .arr [], loading := true, error := none }
          (backend (askRequest s.query))).2 } := by
  simp [handleSubmit, handleSubmitEnter_nonblank s h]

theorem handleSubmitSettle_loading (s : State) (o : Outcome) :
    (handleSubmitSettle s o).1.loading = false := by
  unfold handleSubmitSettle
  cases o with
  | rejected reason => simp [setLoading]
  | resolved response =>
    cases h : readContexts response <;> simp [h, setLoading]

theorem handleSubmitSettle_query (s : State) (o : Outcome) :
    (handleSubmitSettle s o).1.query = s.query := by
  unfold handleSubmitSettle
  cases o with
  | rejected reason => simp [setLoading, setError]
  | resolved response =>
    cases h : readContexts response <;> simp [h, setLoading, setError, setResults]

theorem handleSubmitSettle_rejected (s : State) (reason : JsVal) :
    handleSubmitSettle s (.rejected reason) =
      ({ s with loading := false, error := some errorMessage }, [.rejection reason]) := by
  simp [handleSubmitSettle, setLoading, setError]

theorem handleSubmitSettle_ok (s : State) (response contexts : JsVal)
    (h : readContexts response = .ok contexts) :
    handleSubmitSettle s (.resolved response) =
      ({ s with loading := false, results := contexts }, []) := by
  simp [handleSubmitSettle, h, setLoading, setResults]

theorem handleSubmitSettle_raise (s : State) (response : JsVal) (t : Thrown)
    (h : readContexts response = .error t) :
    handleSubmitSettle s (.resolved response) =
      ({ s with loading := false, error := some errorMessage }, [t]) := by
  simp [handleSubmitSettle, h, setLoading, setError]

theorem gtZero_num (n : ℚ) : gtZero (.num n) = .ok (decide (0 < n)) := by
  simp [gtZero, toPrimitiveThrows, toNumberPositive]

theorem getField_present (v : JsVal) (f : Field) (h : v.isPresent = true) :
    ∃ w, getField v f = .ok w := by
  cases v <;> simp [getField, JsVal.isPresent] at h ⊢

theorem resultCard_present (item : JsVal) (index : Nat) (h : item.isPresent = true) :
    ∃ card, resultCard item index = .ok card ∧ card.key = index ∧
      getField item .source_title = .ok card.title ∧
      getField item .text_snippet = .ok card.snippet ∧
      getField item .source_url = .ok card.href := by
  obtain ⟨t, ht⟩ := getField_present item .source_title h
  obtain ⟨p, hp⟩ := getField_present item .text_snippet h
  obtain ⟨u, hu⟩ := getField_present item .source_url h
  exact ⟨{ key := index, title := t, snippet := p, href := u, linkText := "View Source" },
    by simp [resultCard, ht, hp, hu], rfl, ht, hp, hu⟩

theorem mapCards_present (items : List JsVal) :
    ∀ index : Nat, (∀ item ∈ items, item.isPresent = true) →
      ∃ cards, mapCards items index = .ok cards ∧ cards.length = items.length ∧
        ∀ (i : Nat) (item : JsVal), items[i]? = some item →
          ∃ card, cards[i]? = some card ∧ card.key = index + i ∧
            getField item .source_title = .ok card.title ∧
            getField item .text_snippet = .ok card.snippet ∧
            getField item .source_url = .ok card.href := by
  induction items with
  | nil =>
    intro index _
    exact ⟨[], by simp [mapCards], rfl, by simp⟩
  | cons x xs ih =>
    intro index hall
    obtain ⟨card, hcard, hkey, ht, hp, hu⟩ :=
      resultCard_present x index (hall x (List.mem_cons_self x xs))
    obtain ⟨cards, hcards, hlen, hget⟩ :=
      ih (index + 1) (fun item hmem => hall item (List.mem_cons_of_mem x hmem))
    refine ⟨card :: cards, by simp [mapCards, hcard, hcards], by simp [hlen], ?_⟩
    intro i item hi
    cases i with
    | zero =>
      simp at hi
      subst hi
      exact ⟨card, by simp, by simpa using hkey, ht, hp, hu⟩
    | succ j =>
      simp at hi
      obtain ⟨c, hc, hk, h1, h2, h3⟩ := hget j item hi
      exact ⟨c, by simpa using hc, by omega, h1, h2, h3⟩

theorem renderResults_nil (loading : Bool) :
    renderResults (.arr []) loading =
      .ok (if !loading then .noResults noResultsText else .blank) := by
  simp [renderResults, getField, gtZero_num]

theorem renderResults_cons (x : JsVal) (xs : List JsVal) (loading : Bool) :
    renderResults (.arr (x :: xs)) loading =
      match mapCards (x :: xs) 0 with
      | .error t => .error t
      | .ok cards => .ok (.cards cards) := by
  have hpos : (0 : ℚ) < (xs.length : ℚ) + 1 := by positivity
  simp [renderResults, getField, gtZero_num, hpos]

theorem renderResults_items (items : List JsVal) (loading : Bool)
    (hall : ∀ item ∈ items, item.isPresent = true) :
    ∃ pane, renderResults (.arr items) loading = .ok pane ∧
      pane.cardList.length = items.length ∧
      ∀ (i : Nat) (item : JsVal), items[i]? = some item →
        ∃ card, pane.cardList[i]? = some card ∧ card.key = i ∧
          getField item .source_title = .ok card.title ∧
          getField item .text_snippet = .ok card.snippet ∧
          getField item .source_url = .ok card.href := by
  cases items with
  | nil =>
    refine ⟨_, renderResults_nil loading, ?_, by simp⟩
    cases loading <;> simp [ResultsPane.cardList]
  | cons x xs =>
    obtain ⟨cards, hcards, hlen, hget⟩ := mapCards_present (x :: xs) 0 hall
    refine ⟨.cards cards, by rw [renderResults_cons, hcards], by simpa [ResultsPane.cardList] using hlen, ?_⟩
    intro i item hi
    obtain ⟨c, hc, hk, h1, h2, h3⟩ := hget i item hi
    exact ⟨c, by simpa [ResultsPane.cardList] using hc, by omega, h1, h2, h3⟩

theorem render_of_pane (s : State) (pane : ResultsPane)
    (h : renderResults s.results s.loading = .ok pane) :
    render s = .ok { heading := "Professional RAG Chatbot 🤖"
                     input := queryInput s
                     button := submitButton s
                     errorBanner := errorBanner s
                     results := pane } := by
  simp [render, h]

theorem render_button (s : State) (v : View) (h : render s = .ok v) :
    v.button = submitButton s := by
  unfold render at h
  cases hp : renderResults s.results s.loading with
  | error t => simp [hp] at h
  | ok pane =>
    simp [hp] at h
    rw [← h]

end App

namespace App

/-! ## The submit handler -/

/-- C1: for a query whose trim is empty, whatever the results, error and
loading flag were before, `handleSubmit` issues no request, never reaches the
`await`, and ends with loading false, the empty result list and no error. -/
theorem handleSubmit_blank_query (s : State) (backend : Request → Outcome)
    (h : jsTrim s.query = "") :
    (handleSubmit s backend).requests = [] ∧
    (handleSubmit s backend).atAwait = none ∧
    (handleSubmit s backend).final.loading = false ∧
    (handleSubmit s backend).final.results = .arr [] ∧
    (handleSubmit s backend).final.error = none := by
  simp [handleSubmit, handleSubmitEnter_blank s h]

theorem handleSubmit_blank_query_witness :
    jsTrim "  \t" = "" ∧
    (handleSubmit { query := "  \t", results := .str "stale", loading := true,
                    error := some "old" } (fun _ => .rejected .null)).requests = [] ∧
    (handleSubmit { query := "  \t", results := .str "stale", loading := true,
                    error := some "old" } (fun _ => .rejected .null)).atAwait = none ∧
    (handleSubmit { query := "  \t", results := .str "stale", loading := true,
                    error := some "old" } (fun _ => .rejected .null)).final.loading = false ∧
    (handleSubmit { query := "  \t", results := .str "stale", loading := true,
                    error := some "old" } (fun _ => .rejected .null)).final.results = .arr [] ∧
    (handleSubmit { query := "  \t", results := .str "stale", loading := true,
                    error := some "old" } (fun _ => .rejected .null)).final.error = none :=
  ⟨by decide, handleSubmit_blank_query _ _ (by decide)⟩

/-- C2: for a query whose trim is not empty, the state in which
`handleSubmit` waits for the response has the empty result list, no error and
loading true, whatever results and error were shown before. -/
theorem handleSubmit_clears_before_await (s : State) (backend : Request → Outcome)
    (h : jsTrim s.query ≠ "") :
    ∃ w, (handleSubmit s backend).atAwait = some w ∧
      w.results = .arr [] ∧ w.error = none ∧ w.loading = true := by
  rw [handleSubmit_nonblank s backend h]
  exact ⟨_, rfl, rfl, rfl, rfl⟩

theorem handleSubmit_clears_before_await_witness :
    jsTrim "valid" ≠ "" ∧
    ∃ w, (handleSubmit { query := "valid", results := .arr [.num 1], loading := false,
                         error := some "old" } (fun _ => .rejected .null)).atAwait = some w ∧
      w.results = .arr [] ∧ w.error = none ∧ w.loading = true :=
  ⟨by decide, handleSubmit_clears_before_await _ _ (by decide)⟩

/-- C6: for a query `q` whose trim is not empty, `handleSubmit` issues exactly
one request, a POST to the `/ask` endpoint, with body
`{ q: q, k: 5, mode: "hybrid" }`, `q` being the query text untrimmed; `k` and
`mode` are constants. -/
theorem handleSubmit_request (s : State) (backend : Request → Outcome)
    (h : jsTrim s.query ≠ "") :
    (handleSubmit s backend).requests =
      [{ method := "POST"
         url := "http://127.0.0.1:8000/ask"
         body := .obj [("q", .str s.query), ("k", .num 5), ("mode", .str "hybrid")] }] := by
  rw [handleSubmit_nonblank s backend h]
  rfl

theorem handleSubmit_request_witness :
    jsTrim " fire extinguisher " ≠ "" ∧
    (handleSubmit { query := " fire extinguisher ", results := .arr [], loading := false,
                    error := none } (fun _ => .rejected .null)).requests =
      [{ method := "POST"
         url := "http://127.0.0.1:8000/ask"
         body := .obj [("q", .str " fire extinguisher "), ("k", .num 5),
                       ("mode", .str "hybrid")] }] :=
  ⟨by decide, handleSubmit_request _ _ (by decide)⟩

/-- C8: `handleSubmit` leaves the query unchanged on every path (early return,
success, failure), at the `await` and at its end; stepping the component, the
query differs afterwards only when the event is a change of the input, which
sets it to the typed value. -/
theorem handleSubmit_keeps_query (s : State) (backend : Request → Outcome) :
    (handleSubmit s backend).final.query = s.query ∧
    (∀ w, (handleSubmit s backend).atAwait = some w → w.query = s.query) ∧
    (∀ (c c1 : Sys) (e : Event), c.step e = some c1 → c1.view.query ≠ c.view.query →
      ∃ value, e = .change value ∧ c1.view.query = value) := by
  refine ⟨?_, ?_, ?_⟩
  · by_cases h : jsTrim s.query = ""
    · simp [handleSubmit, handleSubmitEnter_blank s h]
    · rw [handleSubmit_nonblank s backend h]
      exact handleSubmitSettle_query _ _
  · intro w hw
    by_cases h : jsTrim s.query = ""
    · simp [handleSubmit, handleSubmitEnter_blank s h] at hw
    · rw [handleSubmit_nonblank s backend h] at hw
      simp at hw
      rw [← hw]
  · intro c c1 e hstep hne
    cases e with
    | change value =>
      simp [Sys.step, onChange, setQuery] at hstep
      exact ⟨value, rfl, by rw [← hstep]⟩
    | submit =>
      exfalso
      apply hne
      by_cases h : jsTrim c.view.query = ""
      · simp [Sys.step, handleSubmitEnter_blank c.view h] at hstep
        rw [← hstep]
      · simp [Sys.step, handleSubmitEnter_nonblank c.view h] at hstep
        rw [← hstep]
    | settle o =>
      exfalso
      apply hne
      by_cases h0 : c.inFlight = 0
      · simp [Sys.step, h0] at hstep
      · simp [Sys.step, h0] at hstep
        rw [← hstep]
        exact handleSubmitSettle_query _ _

theorem handleSubmit_keeps_query_witness :
    (handleSubmit { query := "valid", results := .arr [], loading := false, error := none }
      (fun _ => .rejected .null)).final.query = "valid" ∧
    (Sys.init.step (.change "a") =
        some { view := { query := "a", results := .arr [], loading := false, error := none },
               inFlight := 0 } ∧
      ("a" : String) ≠ Sys.init.view.query ∧
      ∃ value, Event.change "a" = .change value ∧ ("a" : String) = value) :=
  ⟨(handleSubmit_keeps_query
      { query := "valid", results := .arr [], loading := false, error := none }
      (fun _ => .rejected .null)).1,
    rfl, by decide,
    (handleSubmit_keeps_query State.init (fun _ => .rejected .null)).2.2 Sys.init
      { view := { query := "a", results := .arr [], loading := false, error := none },
        inFlight := 0 }
      (.change "a") rfl (by decide)⟩

/-! ## Resolution and rendering -/

theorem render_itemList (s : State) (h : s.results.isItemList = true) :
    (∃ items, s.results = .arr items ∧ ∀ item ∈ items, item.isPresent = true) ∧
    ∃ v, render s = .ok v := by
  cases hr : s.results with
  | arr items =>
    rw [hr] at h
    have hall : ∀ item ∈ items, item.isPresent = true := by
      simpa [JsVal.isItemList] using h
    refine ⟨⟨items, rfl, hall⟩, ?_⟩
    obtain ⟨pane, hpane, -, -⟩ := renderResults_items items s.loading hall
    exact ⟨_, render_of_pane s pane (by rw [hr]; exact hpane)⟩
  | undefined => rw [hr] at h; simp [JsVal.isItemList] at h
  | null => rw [hr] at h; simp [JsVal.isItemList] at h
  | bool b => rw [hr] at h; simp [JsVal.isItemList] at h
  | num n => rw [hr] at h; simp [JsVal.isItemList] at h
  | str t => rw [hr] at h; simp [JsVal.isItemList] at h
  | obj fields => rw [hr] at h; simp [JsVal.isItemList] at h

theorem final_itemList (s : State) (backend : Request → Outcome)
    (h : jsTrim s.query = "" ∨ (backend (askRequest s.query)).wellShaped = true) :
    (handleSubmit s backend).final.results.isItemList = true := by
  by_cases hq : jsTrim s.query = ""
  · simp [handleSubmit, handleSubmitEnter_blank s hq, JsVal.isItemList]
  · have hw : (backend (askRequest s.query)).wellShaped = true := h.resolve_left hq
    rw [handleSubmit_nonblank s backend hq]
    cases ho : backend (askRequest s.query) with
    | rejected reason =>
      rw [handleSubmitSettle_rejected]
      rfl
    | resolved response =>
      cases hc : readContexts response with
      | error t =>
        rw [handleSubmitSettle_raise _ _ t hc]
        rfl
      | ok contexts =>
        rw [handleSubmitSettle_ok _ _ contexts hc]
        simpa [ho, Outcome.wellShaped, hc] using hw

theorem final_loading (s : State) (backend : Request → Outcome) :
    (handleSubmit s backend).final.loading = false := by
  by_cases h : jsTrim s.query = ""
  · simp [handleSubmit, handleSubmitEnter_blank s h]
  · rw [handleSubmit_nonblank s backend h]
    exact handleSubmitSettle_loading _ _

/-- C5, as stated, fails: for the query `valid` and a backend answering
status 200 with the JSON body `{}`, loading is false once `handleSubmit` has
finished, but building the view raises a `TypeError` at `results.length`, so
no submit control is rendered. -/
theorem no_control_without_contexts :
    (handleSubmit { query := "valid", results := .arr [], loading := false, error := none }
      (fun _ => axiosPost .null (.reply 200 (.json (.obj []))))).final.loading = false ∧
    render (handleSubmit { query := "valid", results := .arr [], loading := false, error := none }
      (fun _ => axiosPost .null (.reply 200 (.json (.obj []))))).final = .error .typeError ∧
    ¬ ∃ v, render (handleSubmit
        { query := "valid", results := .arr [], loading := false, error := none }
        (fun _ => axiosPost .null (.reply 200 (.json (.obj []))))).final = .ok v ∧
      v.button = { disabled := false, label := "Search" } := by
  have hfin : (handleSubmit
      { query := "valid", results := .arr [], loading := false, error := none }
      (fun _ => axiosPost .null (.reply 200 (.json (.obj []))))).final =
      { query := "valid", results := .undefined, loading := false, error := none } := by
    rw [handleSubmit_nonblank _ _ (by decide)]
    rfl
  have hr : render { query := "valid", results := .undefined, loading := false, error := none } =
      .error .typeError := rfl
  rw [hfin, hr]
  refine ⟨rfl, rfl, ?_⟩
  rintro ⟨v, hv, -⟩
  cases hv

/-- C5, amended: once `handleSubmit` has finished, for every query and every
way the request settles, loading is false; when the query is blank, the
request fails, or the response delivers as contexts a list without `null` or
`undefined` items, the view is rendered and its submit button is enabled with
the label `Search`; the view at the `await` is rendered with the button
disabled and the label `Searching...`; in every rendered view the button is
disabled exactly when loading is true. -/
theorem submit_control_after_resolution (s : State) (backend : Request → Outcome) :
    (handleSubmit s backend).final.loading = false ∧
    ((jsTrim s.query = "" ∨ (backend (askRequest s.query)).wellShaped = true) →
      ∃ v, render (handleSubmit s backend).final = .ok v ∧
        v.button = { disabled := false, label := "Search" }) ∧
    (∀ w, (handleSubmit s backend).atAwait = some w →
      ∃ v, render w = .ok v ∧ v.button = { disabled := true, label := "Searching..." }) ∧
    (∀ (t : State) (v : View), render t = .ok v →
      (v.button.disabled = true ↔ t.loading = true)) := by
  have hfin := final_loading s backend
  refine ⟨hfin, ?_, ?_, ?_⟩
  · intro h
    obtain ⟨-, v, hv⟩ := render_itemList _ (final_itemList s backend h)
    exact ⟨v, hv, by rw [render_button _ v hv]; simp [submitButton, hfin]⟩
  · intro w hw
    by_cases hq : jsTrim s.query = ""
    · simp [handleSubmit, handleSubmitEnter_blank s hq] at hw
    · rw [handleSubmit_nonblank s backend hq] at hw
      simp at hw
      rw [← hw]
      rw [render_of_pane _ _ (renderResults_nil true)]
      exact ⟨_, rfl, rfl⟩
  · intro t v hv
    rw [render_button t v hv]
    simp [submitButton]

theorem submit_control_after_resolution_witness :
    (jsTrim "valid" = "" ∨
      ((fun _ => Outcome.resolved (.obj [("data", .obj [("contexts", .arr [])])])) (askRequest
        "valid")).wellShaped = true) ∧
    ∃ v, render (handleSubmit
        { query := "valid", results := .arr [], loading := false, error := none }
        (fun _ => .resolved (.obj [("data", .obj [("contexts", .arr [])])]))).final = .ok v ∧
      v.button = { disabled := false, label := "Search" } :=
  ⟨Or.inr rfl,
    (submit_control_after_resolution
      { query := "valid", results := .arr [], loading := false, error := none }
      (fun _ => .resolved (.obj [("data", .obj [("contexts", .arr [])])]))).2.1 (Or.inr rfl)⟩

/-- C3, as stated, fails: for the query `valid` and a response whose contexts
list is `[null]`, the results become that list, but building the view raises
a `TypeError` at `result.source_title`, so no card is shown. -/
theorem null_item_raises :
    (handleSubmit { query := "valid", results := .arr [], loading := false, error := none }
      (fun _ => .resolved (.obj [("data", .obj [("contexts", .arr [.null])])]))).final.results =
      .arr [.null] ∧
    render (handleSubmit { query := "valid", results := .arr [], loading := false, error := none }
      (fun _ => .resolved (.obj [("data", .obj [("contexts", .arr [.null])])]))).final =
      .error .typeError ∧
    ¬ ∃ v, render (handleSubmit
        { query := "valid", results := .arr [], loading := false, error := none }
        (fun _ => .resolved (.obj [("data", .obj [("contexts", .arr [.null])])]))).final = .ok v ∧
      v.results.cardList.length = [JsVal.null].length := by
  have hfin : (handleSubmit
      { query := "valid", results := .arr [], loading := false, error := none }
      (fun _ => .resolved (.obj [("data", .obj [("contexts", .arr [.null])])]))).final =
      { query := "valid", results := .arr [.null], loading := false, error := none } := by
    rw [handleSubmit_nonblank _ _ (by decide)]
    rfl
  have hr :
      render { query := "valid", results := .arr [.null], loading := false, error := none } =
        .error .typeError := by
    simp [render, renderResults_cons, mapCards, resultCard, getField]
  rw [hfin, hr]
  refine ⟨rfl, rfl, ?_⟩
  rintro ⟨v, hv, -⟩
  cases hv

/-- C3, amended: for a query whose trim is not empty and a response whose
`data.contexts` is a list `cs`, after `handleSubmit` the results are `cs`
itself; when none of the items of `cs` is `undefined` or `null` (records in
particular), the view shows `length cs` cards, card `i` having key `i` and as
title, snippet and link target the values of `cs[i].source_title`,
`cs[i].text_snippet` and `cs[i].source_url`. -/
theorem handleSubmit_success_cards (s : State) (backend : Request → Outcome)
    (response : JsVal) (cs : List JsVal)
    (hq : jsTrim s.query ≠ "")
    (hb : backend (askRequest s.query) = .resolved response)
    (hc : readContexts response = .ok (.arr cs)) :
    (handleSubmit s backend).final.results = .arr cs ∧
    ((∀ item ∈ cs, item.isPresent = true) →
      ∃ v, render (handleSubmit s backend).final = .ok v ∧
        v.results.cardList.length = cs.length ∧
        ∀ (i : Nat) (item : JsVal), cs[i]? = some item →
          ∃ card, v.results.cardList[i]? = some card ∧ card.key = i ∧
            getField item .source_title = .ok card.title ∧
            getField item .text_snippet = .ok card.snippet ∧
            getField item .source_url = .ok card.href) := by
  rw [handleSubmit_nonblank s backend hq, hb]
  rw [handleSubmitSettle_ok _ response (.arr cs) hc]
  refine ⟨rfl, fun hitems => ?_⟩
  obtain ⟨pane, hpane, hlen, hget⟩ := renderResults_items cs false hitems
  exact ⟨_, render_of_pane _ pane hpane, hlen, hget⟩

theorem handleSubmit_success_cards_witness :
    jsTrim "fire extinguisher" ≠ "" ∧
    (∀ item ∈ [JsVal.obj [("source_title", .str "Doc A"), ("text_snippet", .str "..."),
                          ("source_url", .str "http://x")]], item.isPresent = true) ∧
    ∃ v, render (handleSubmit
      { query := "fire extinguisher", results := .arr [], loading := false, error := none }
      (fun _ => .resolved (.obj [("data", .obj [("contexts", .arr
        [.obj [("source_title", .str "Doc A"), ("text_snippet", .str "..."),
               ("source_url", .str "http://x")]])])]))).final = .ok v ∧
      v.results.cardList.length =
        [JsVal.obj [("source_title", .str "Doc A"), ("text_snippet", .str "..."),
                    ("source_url", .str "http://x")]].length ∧
      ∀ (i : Nat) (item : JsVal),
        [JsVal.obj [("source_title", .str "Doc A"), ("text_snippet", .str "..."),
                    ("source_url", .str "http://x")]][i]? = some item →
        ∃ card, v.results.cardList[i]? = some card ∧ card.key = i ∧
          getField item .source_title = .ok card.title ∧
          getField item .text_snippet = .ok card.snippet ∧
          getField item .source_url = .ok card.href :=
  ⟨by decide, by simp [JsVal.isPresent],
    (handleSubmit_success_cards _ _
      (.obj [("data", .obj [("contexts", .arr
        [.obj [("source_title", .str "Doc A"), ("text_snippet", .str "..."),
               ("source_url", .str "http://x")]])])])
      [.obj [("source_title", .str "Doc A"), ("text_snippet", .str "..."),
             ("source_url", .str "http://x")]]
      (by decide) rfl rfl).2 (by simp [JsVal.isPresent])⟩

/-! ## Failure -/

theorem strTruthy_errorMessage : strTruthy errorMessage = true := by decide

theorem final_after_rejection (s : State) (backend : Request → Outcome) (reason : JsVal)
    (hq : jsTrim s.query ≠ "") (hb : backend (askRequest s.query) = .rejected reason) :
    (handleSubmit s backend).final =
      { query := s.query, results := .arr [], loading := false, error := some errorMessage } := by
  rw [handleSubmit_nonblank s backend hq, hb, handleSubmitSettle_rejected]

theorem render_failure (q : String) :
    render { query := q, results := .arr [], loading := false, error := some errorMessage } =
      .ok { heading := "Professional RAG Chatbot 🤖"
            input := { value := q, placeholder := "Ask a question about industrial safety..." }
            button := { disabled := false, label := "Search" }
            errorBanner := some errorMessage
            results := .noResults noResultsText } := by
  rw [render_of_pane _ _ (renderResults_nil false)]
  simp [queryInput, submitButton, errorBanner, strTruthy_errorMessage]

theorem axiosPost_rejects (reject : JsVal) (x : Exchange)
    (hx : ∀ status body, x = .reply status body → ¬ (200 ≤ status ∧ status < 300)) :
    ∃ reason, axiosPost reject x = .rejected reason := by
  cases x with
  | networkFailure reason => exact ⟨reason, rfl⟩
  | reply status body =>
    have h := hx status body rfl
    exact ⟨reject, by simp only [axiosPost, if_neg h]⟩

/-- C7, as stated, fails: for the query `valid` and a request that rejects,
the view after `handleSubmit` shows the error banner and no card, and the
placeholder paragraph is shown as well. -/
theorem placeholder_shown_beside_error :
    (∃ v, render (handleSubmit
        { query := "valid", results := .arr [], loading := false, error := none }
        (fun _ => .rejected (.str "Network Error"))).final = .ok v ∧
      v.errorBanner = some errorMessage ∧ v.results.cardList = [] ∧
      v.results.placeholderText = some "No results found or waiting for a query.") ∧
    ¬ ∃ v, render (handleSubmit
        { query := "valid", results := .arr [], loading := false, error := none }
        (fun _ => .rejected (.str "Network Error"))).final = .ok v ∧
      v.errorBanner = some errorMessage ∧ v.results.cardList = [] ∧
      v.results.placeholderText = none := by
  have hfin := final_after_rejection
    { query := "valid", results := .arr [], loading := false, error := none }
    (fun _ => .rejected (.str "Network Error")) (.str "Network Error") (by decide) rfl
  rw [hfin, render_failure]
  refine ⟨⟨_, rfl, rfl, rfl, rfl⟩, ?_⟩
  rintro ⟨v, hv, -, -, hp⟩
  simp at hv
  rw [← hv] at hp
  simp [ResultsPane.placeholderText] at hp

/-- C7, amended: for a query whose trim is not empty and a request that
rejects, the view after `handleSubmit` shows the error banner with the fixed
message, no result card, and also the placeholder paragraph: the placeholder
depends on the results being empty and loading being false, not on the
error. -/
theorem render_after_rejection (s : State) (backend : Request → Outcome) (reason : JsVal)
    (hq : jsTrim s.query ≠ "") (hb : backend (askRequest s.query) = .rejected reason) :
    ∃ v, render (handleSubmit s backend).final = .ok v ∧
      v.errorBanner = some errorMessage ∧ v.results.cardList = [] ∧
      v.results.placeholderText = some "No results found or waiting for a query." := by
  rw [final_after_rejection s backend reason hq hb, render_failure]
  exact ⟨_, rfl, rfl, rfl, rfl⟩

theorem render_after_rejection_witness :
    jsTrim "valid" ≠ "" ∧
    ∃ v, render (handleSubmit
        { query := "valid", results := .arr [.num 1], loading := false, error := none }
        (fun _ => .rejected .null)).final = .ok v ∧
      v.errorBanner = some errorMessage ∧ v.results.cardList = [] ∧
      v.results.placeholderText = some "No results found or waiting for a query." :=
  ⟨by decide, render_after_rejection _ _ .null (by decide) rfl⟩

/-- C4, as stated, fails in its third case: for the query `valid` and a
backend answering status 200 with a body that is not JSON, the promise
resolves with the text as `data`, so after `handleSubmit` the error is still
`null` and the results are `undefined`. -/
theorem malformed_body_sets_no_error :
    (handleSubmit { query := "valid", results := .arr [], loading := false, error := none }
      (fun _ => axiosPost .null (.reply 200 (.malformed "<html>")))).final =
      { query := "valid", results := .undefined, loading := false, error := none } ∧
    ¬ ((handleSubmit { query := "valid", results := .arr [], loading := false, error := none }
        (fun _ => axiosPost .null (.reply 200 (.malformed "<html>")))).final.error =
          some errorMessage ∧
       (handleSubmit { query := "valid", results := .arr [], loading := false, error := none }
        (fun _ => axiosPost .null (.reply 200 (.malformed "<html>")))).final.results =
          .arr []) := by
  have hfin : (handleSubmit
      { query := "valid", results := .arr [], loading := false, error := none }
      (fun _ => axiosPost .null (.reply 200 (.malformed "<html>")))).final =
      { query := "valid", results := .undefined, loading := false, error := none } := by
    rw [handleSubmit_nonblank _ _ (by decide)]
    rfl
  rw [hfin]
  exact ⟨rfl, fun h => by simp at h⟩

/-- C4, amended: for a query whose trim is not empty, when no response
arrives or the backend answers with a status outside 200 to 299 (500 in
particular), after `handleSubmit` the error is the fixed message, the result
list is empty and loading is false. -/
theorem handleSubmit_request_failure (s : State) (reject : JsVal) (x : Exchange)
    (hq : jsTrim s.query ≠ "")
    (hx : ∀ status body, x = .reply status body → ¬ (200 ≤ status ∧ status < 300)) :
    (handleSubmit s (fun _ => axiosPost reject x)).final.error =
      some "An error occurred while fetching data. Please check if the backend is running." ∧
    (handleSubmit s (fun _ => axiosPost reject x)).final.results = .arr [] ∧
    (handleSubmit s (fun _ => axiosPost reject x)).final.loading = false := by
  obtain ⟨reason, hr⟩ := axiosPost_rejects reject x hx
  rw [final_after_rejection s (fun _ => axiosPost reject x) reason hq hr]
  exact ⟨rfl, rfl, rfl⟩

theorem handleSubmit_request_failure_witness :
    jsTrim "valid" ≠ "" ∧
    (∀ status body, Exchange.reply 500 (.malformed "Internal Server Error") =
        .reply status body → ¬ (200 ≤ status ∧ status < 300)) ∧
    (handleSubmit { query := "valid", results := .arr [.num 1], loading := false, error := none }
      (fun _ => axiosPost .null (.reply 500 (.malformed "Internal Server Error")))).final.error =
      some "An error occurred while fetching data. Please check if the backend is running." ∧
    (handleSubmit { query := "valid", results := .arr [.num 1], loading := false, error := none }
      (fun _ => axiosPost .null (.reply 500 (.malformed "Internal Server Error")))).final.results =
      .arr [] ∧
    (handleSubmit { query := "valid", results := .arr [.num 1], loading := false, error := none }
      (fun _ => axiosPost .null (.reply 500 (.malformed "Internal Server Error")))).final.loading =
      false :=
  ⟨by decide,
    fun status body h => by
      injection h with hs _
      omega,
    handleSubmit_request_failure _ .null (.reply 500 (.malformed "Internal Server Error"))
      (by decide)
      (fun status body h => by
        injection h with hs _
        omega)⟩

/-! ## Reachable states -/

theorem lastSettle_snoc (seen : List Event) (e : Event) :
    lastSettle (seen ++ [e]) =
      match e with
      | .settle o => some o
      | _ => lastSettle seen := by
  induction seen with
  | nil => cases e <;> simp [lastSettle]
  | cons x xs ih =>
    cases e with
    | change value =>
      simp only at ih
      simp only [List.cons_append, lastSettle, List.append_eq, ih]
    | submit =>
      simp only at ih
      simp only [List.cons_append, lastSettle, List.append_eq, ih]
    | settle o =>
      simp only at ih
      simp only [List.cons_append, lastSettle, List.append_eq, ih]

theorem lastSettle_listShaped (evs : List Event) :
    ∀ o, allListShaped evs = true → lastSettle evs = some o → o.listShaped = true := by
  induction evs with
  | nil =>
    intro o _ h
    simp [lastSettle] at h
  | cons e es ih =>
    intro o hw h
    cases hl : lastSettle es with
    | some o1 =>
      simp [lastSettle, hl] at h
      subst h
      cases e <;> simp [allListShaped] at hw
      · exact ih o1 hw hl
      · exact ih o1 hw hl
      · exact ih o1 hw.2 hl
    | none =>
      cases e with
      | change value => simp [lastSettle, hl] at h
      | submit => simp [lastSettle, hl] at h
      | settle o2 =>
        simp [lastSettle, hl] at h
        subst h
        simp [allListShaped] at hw
        exact hw.1

theorem stepSeq_consistent (seen : List Event) (c c1 : Sys) (e : Event)
    (h : c.Consistent seen) (hstep : c.stepSeq e = some c1) :
    c1.Consistent (seen ++ [e]) := by
  cases e with
  | change value =>
    simp [Sys.stepSeq, Sys.step, onChange, setQuery] at hstep
    rw [← hstep]
    simpa [Sys.Consistent, lastSettle_snoc, State.isIdle, State.isFailure, State.isLoading]
      using h
  | submit =>
    by_cases h0 : c.inFlight = 0
    · by_cases hq : jsTrim c.view.query = ""
      · simp [Sys.stepSeq, Sys.step, h0, handleSubmitEnter_blank c.view hq] at hstep
        rw [← hstep]
        exact Or.inl ⟨rfl, Or.inl ⟨rfl, rfl, rfl⟩⟩
      · simp [Sys.stepSeq, Sys.step, h0, handleSubmitEnter_nonblank c.view hq] at hstep
        rw [← hstep]
        exact Or.inr ⟨rfl, rfl, rfl, rfl⟩
    · simp [Sys.stepSeq, h0] at hstep
  | settle o =>
    by_cases h0 : c.inFlight = 0
    · simp [Sys.stepSeq, Sys.step, h0] at hstep
    · simp [Sys.stepSeq, Sys.step, h0] at hstep
      rcases h with ⟨hz, -⟩ | ⟨h1, hl, he, hr⟩
      · exact absurd hz h0
      · rw [← hstep]
        refine Or.inl ⟨by simp [h1], ?_⟩
        cases o with
        | rejected reason =>
          refine Or.inr (Or.inl ?_)
          rw [handleSubmitSettle_rejected]
          exact ⟨rfl, rfl, hr⟩
        | resolved response =>
          cases hc : readContexts response with
          | error t =>
            refine Or.inr (Or.inl ?_)
            rw [handleSubmitSettle_raise _ _ t hc]
            exact ⟨rfl, rfl, hr⟩
          | ok contexts =>
            refine Or.inr (Or.inr ⟨.resolved response, contexts, ?_, ?_, ?_⟩)
            · simp [lastSettle_snoc]
            · simp [Outcome.returned, hc]
            · rw [handleSubmitSettle_ok _ _ contexts hc]
              exact ⟨rfl, he, rfl⟩

theorem runSeq_consistent (evs : List Event) :
    ∀ (seen : List Event) (c c1 : Sys), c.Consistent seen → Sys.runSeq c evs = some c1 →
      c1.Consistent (seen ++ evs) := by
  induction evs with
  | nil =>
    intro seen c c1 h hrun
    simp [Sys.runSeq] at hrun
    rw [← hrun]
    simpa using h
  | cons e es ih =>
    intro seen c c1 h hrun
    cases hs : c.stepSeq e with
    | none => simp [Sys.runSeq, hs] at hrun
    | some c2 =>
      simp [Sys.runSeq, hs] at hrun
      have h2 := ih (seen ++ [e]) c2 c1 (stepSeq_consistent seen c c2 e h hs) hrun
      simpa using h2

theorem step_itemList (c c1 : Sys) (e : Event)
    (hw : allWellShaped [e] = true) (h : c.view.results.isItemList = true)
    (hstep : c.step e = some c1) : c1.view.results.isItemList = true := by
  cases e with
  | change value =>
    simp [Sys.step, onChange, setQuery] at hstep
    rw [← hstep]
    exact h
  | submit =>
    by_cases hq : jsTrim c.view.query = ""
    · simp [Sys.step, handleSubmitEnter_blank c.view hq] at hstep
      rw [← hstep]
      rfl
    · simp [Sys.step, handleSubmitEnter_nonblank c.view hq] at hstep
      rw [← hstep]
      rfl
  | settle o =>
    by_cases h0 : c.inFlight = 0
    · simp [Sys.step, h0] at hstep
    · simp [Sys.step, h0] at hstep
      rw [← hstep]
      cases o with
      | rejected reason =>
        rw [handleSubmitSettle_rejected]
        exact h
      | resolved response =>
        cases hc : readContexts response with
        | error t =>
          rw [handleSubmitSettle_raise _ _ t hc]
          exact h
        | ok contexts =>
          rw [handleSubmitSettle_ok _ _ contexts hc]
          simpa [allWellShaped, Outcome.wellShaped, hc] using hw

theorem allWellShaped_cons (e : Event) (es : List Event) :
    allWellShaped (e :: es) = (allWellShaped [e] && allWellShaped es) := by
  cases e <;> simp [allWellShaped]

theorem run_itemList (evs : List Event) :
    ∀ (c c1 : Sys), allWellShaped evs = true → c.view.results.isItemList = true →
      Sys.run c evs = some c1 → c1.view.results.isItemList = true := by
  induction evs with
  | nil =>
    intro c c1 _ h hrun
    simp [Sys.run] at hrun
    rw [← hrun]
    exact h
  | cons e es ih =>
    intro c c1 hw h hrun
    rw [allWellShaped_cons, Bool.and_eq_true] at hw
    cases hs : c.step e with
    | none => simp [Sys.run, hs] at hrun
    | some c2 =>
      simp [Sys.run, hs] at hrun
      exact ih c2 c1 hw.2 (step_itemList c c2 e hw.1 h hs) hrun

/-- C9, as stated, fails: under sequential submissions, after the query
`valid` is submitted and the backend answers status 200 with the JSON body
`{}`, the state reached is none of Idle, Loading, Failure or Success with a
list; and after a response whose contexts list is empty the state reached is
Idle and Success at once. -/
theorem view_states_not_exhaustive :
    (∃ c, Sys.runSeq Sys.init
        [.change "valid", .submit,
         .settle (axiosPost .null (.reply 200 (.json (.obj []))))] = some c ∧
      ¬ c.view.isIdle ∧ ¬ c.view.isLoading ∧ ¬ c.view.isFailure ∧
      ∀ returned, ¬ c.view.isSuccess returned) ∧
    (∃ c, Sys.runSeq Sys.init
        [.change "valid", .submit,
         .settle (.resolved (.obj [("data", .obj [("contexts", .arr [])])]))] = some c ∧
      c.view.isIdle ∧ c.view.isSuccess []) := by
  refine ⟨⟨{ view := { query := "valid", results := .undefined, loading := false,
                       error := none }, inFlight := 0 }, rfl, ?_, ?_, ?_, ?_⟩,
    ⟨{ view := { query := "valid", results := .arr [], loading := false, error := none },
       inFlight := 0 }, rfl, ⟨rfl, rfl, rfl⟩, ⟨rfl, rfl, rfl⟩⟩⟩
  · rintro ⟨-, -, h⟩
    cases h
  · rintro ⟨h, -, -⟩
    cases h
  · rintro ⟨-, -, h⟩
    cases h
  · rintro returned ⟨-, -, h⟩
    cases h

/-- C9, amended: from the initial state, under sequential submissions, a
state in which loading is true has no error and the empty result list, and an
error is never present together with results other than the empty list. When
moreover every response that delivers a contexts value delivers a list, every
state reached is Idle, Loading, Failure, or Success with the non-empty list
the latest settled response returned, and these four are mutually exclusive;
a success with the empty list is the Idle state. -/
theorem sequential_view_states (evs : List Event) (c : Sys)
    (h : Sys.runSeq Sys.init evs = some c) :
    (allListShaped evs = true →
      c.view.isIdle ∨ c.view.isLoading ∨ c.view.isFailure ∨
        ∃ o returned, lastSettle evs = some o ∧ o.returned = some (.arr returned) ∧
          returned ≠ [] ∧ c.view.isSuccess returned) ∧
    (¬ (c.view.isIdle ∧ c.view.isLoading) ∧ ¬ (c.view.isIdle ∧ c.view.isFailure) ∧
      ¬ (c.view.isLoading ∧ c.view.isFailure) ∧
      ∀ returned, returned ≠ [] → c.view.isSuccess returned →
        ¬ c.view.isIdle ∧ ¬ c.view.isLoading ∧ ¬ c.view.isFailure) ∧
    (c.view.error ≠ none → c.view.results = .arr []) ∧
    (c.view.loading = true → c.view.error = none ∧ c.view.results = .arr []) := by
  have hinit : Sys.init.Consistent [] := Or.inl ⟨rfl, Or.inl ⟨rfl, rfl, rfl⟩⟩
  have hc := runSeq_consistent evs [] Sys.init c hinit h
  simp only [List.nil_append] at hc
  refine ⟨?_, ⟨?_, ?_, ?_, ?_⟩, ?_, ?_⟩
  · intro hw
    rcases hc with ⟨-, hidle | hfail | ⟨o, r, hlast, hret, hload, herr, hres⟩⟩ | ⟨-, hl⟩
    · exact Or.inl hidle
    · exact Or.inr (Or.inr (Or.inl hfail))
    · have hshape := lastSettle_listShaped evs o hw hlast
      simp only [Outcome.listShaped, hret] at hshape
      cases r with
      | arr items =>
        cases items with
        | nil => exact Or.inl ⟨hload, herr, hres⟩
        | cons x xs =>
          exact Or.inr (Or.inr (Or.inr ⟨o, x :: xs, hlast, hret, by simp,
            hload, herr, hres⟩))
      | undefined => simp at hshape
      | null => simp at hshape
      | bool b => simp at hshape
      | num n => simp at hshape
      | str t => simp at hshape
      | obj fields => simp at hshape
    · exact Or.inr (Or.inl hl)
  · rintro ⟨hi, hl⟩
    have := hl.1
    rw [hi.1] at this
    cases this
  · rintro ⟨hi, hf⟩
    have := hf.2.1
    rw [hi.2.1] at this
    cases this
  · rintro ⟨hl, hf⟩
    have := hf.1
    rw [hl.1] at this
    cases this
  · intro returned hne hs
    refine ⟨?_, ?_, ?_⟩
    · rintro ⟨-, -, hr⟩
      rw [hs.2.2] at hr
      injection hr with hr
      exact hne hr
    · rintro ⟨hl, -, -⟩
      rw [hs.1] at hl
      cases hl
    · rintro ⟨-, he, -⟩
      rw [hs.2.1] at he
      cases he
  · intro he
    rcases hc with ⟨-, hidle | hfail | ⟨o, r, -, -, -, herr, -⟩⟩ | ⟨-, hl⟩
    · exact hidle.2.2
    · exact hfail.2.2
    · exact absurd herr he
    · exact hl.2.2
  · intro hload
    rcases hc with ⟨-, hidle | hfail | ⟨o, r, -, -, hl, -, -⟩⟩ | ⟨-, hl⟩
    · simp [hidle.1] at hload
    · simp [hfail.1] at hload
    · simp [hl] at hload
    · exact ⟨hl.2.1, hl.2.2⟩

theorem sequential_view_states_witness :
    Sys.runSeq Sys.init
        [.change "valid", .submit,
         .settle (.resolved (.obj [("data", .obj [("contexts", .arr [.num 1])])])),
         .change "next"] =
      some { view := { query := "next", results := .arr [.num 1], loading := false,
                       error := none },
             inFlight := 0 } ∧
    allListShaped
        [.change "valid", .submit,
         .settle (.resolved (.obj [("data", .obj [("contexts", .arr [.num 1])])])),
         .change "next"] = true ∧
    (State.isIdle { query := "next", results := .arr [.num 1], loading := false,
                    error := none } ∨
      State.isLoading { query := "next", results := .arr [.num 1], loading := false,
                        error := none } ∨
      State.isFailure { query := "next", results := .arr [.num 1], loading := false,
                        error := none } ∨
      ∃ o returned,
        lastSettle
          [Event.change "valid", .submit,
           .settle (.resolved (.obj [("data", .obj [("contexts", .arr [.num 1])])])),
           .change "next"] = some o ∧
        o.returned = some (.arr returned) ∧ returned ≠ [] ∧
        State.isSuccess { query := "next", results := .arr [.num 1], loading := false,
                          error := none } returned) :=
  ⟨rfl, rfl,
    (sequential_view_states
      [.change "valid", .submit,
       .settle (.resolved (.obj [("data", .obj [("contexts", .arr [.num 1])])])),
       .change "next"]
      { view := { query := "next", results := .arr [.num 1], loading := false, error := none },
        inFlight := 0 } rfl).1 rfl⟩

/-- C10, as stated, fails: after the query `valid` is submitted and the
backend answers status 200 with the JSON body `{}`, which has no contexts,
the results are `undefined`, not a list, and building the view raises a
`TypeError` at `results.length`. -/
theorem results_undefined_reachable :
    ∃ c, Sys.run Sys.init
        [.change "valid", .submit,
         .settle (axiosPost .null (.reply 200 (.json (.obj []))))] = some c ∧
      c.view.results = .undefined ∧
      (∀ items, c.view.results ≠ .arr items) ∧
      render c.view = .error .typeError :=
  ⟨{ view := { query := "valid", results := .undefined, loading := false, error := none },
     inFlight := 0 },
    rfl, rfl, (fun _ h => by cases h), rfl⟩

/-- C10, amended: from the initial state, along any sequence of changes,
submissions (overlapping ones included) and settlements in which every
response that yields a contexts value yields an array without `undefined` or
`null` items, the results are such an array in every state reached, and
the component function returns its element tree without raising. -/
theorem results_list_when_well_shaped (evs : List Event) (c : Sys)
    (hw : allWellShaped evs = true) (h : Sys.run Sys.init evs = some c) :
    (∃ items, c.view.results = .arr items ∧ ∀ item ∈ items, item.isPresent = true) ∧
    ∃ v, render c.view = .ok v :=
  render_itemList c.view (run_itemList evs Sys.init c hw rfl h)

theorem results_list_when_well_shaped_witness :
    allWellShaped
        [.change "valid", .submit,
         .settle (.resolved (.obj [("data", .obj [("contexts", .arr [.obj []])])]))] = true ∧
    Sys.run Sys.init
        [.change "valid", .submit,
         .settle (.resolved (.obj [("data", .obj [("contexts", .arr [.obj []])])]))] =
      some { view := { query := "valid", results := .arr [.obj []], loading := false,
                       error := none },
             inFlight := 0 } ∧
    ((∃ items, JsVal.arr [.obj []] = .arr items ∧ ∀ item ∈ items, item.isPresent = true) ∧
      ∃ v, render { query := "valid", results := .arr [.obj []], loading := false,
                    error := none } = .ok v) :=
  ⟨rfl, rfl,
    results_list_when_well_shaped
      [.change "valid", .submit,
       .settle (.resolved (.obj [("data", .obj [("contexts", .arr [.obj []])])]))]
      { view := { query := "valid", results := .arr [.obj []], loading := false, error := none },
        inFlight := 0 } rfl rfl⟩

end App
